import Mathlib

/-!
Shallow embedding of the navigation-menu controller in src/script-v4.js.

The page state (DOM elements the script touches plus the module-level
mutable variables) is modelled by the structure S.  Elements that the
script looks up once at load time and that may be absent from the markup
are Option-valued; dereferencing an absent element is modelled by
Except.error (a thrown TypeError).  Timers are modelled explicitly: the
pending list holds the live timers with their numeric handles, and the
two module variables dropdownTimeout and debounceTimeout hold the last
handle each was assigned, exactly as in the source.  Dropdown panels are
identified by their data-dropdown id (the element dropdown-<id>); the
links of a panel are modelled by a single tabindex value, since the
script always sets all links of a panel to the same value.
-/

namespace MenuScript

/-- Constant CLOSE_DELAY from the source (milliseconds). -/
def CLOSE_DELAY : ℚ := 0

/-- Constant DEBOUNCE_DELAY from the source (milliseconds). -/
def DEBOUNCE_DELAY : ℚ := 50

/-- Constant MOBILE_BREAKPOINT from the source (pixels). -/
def MOBILE_BREAKPOINT : ℕ := 768

/-- Default fallback value of the mutable TRANSITION_DURATION variable. -/
def TRANSITION_DURATION_DEFAULT : ℚ := 600

/-- Focusable elements of the page that the script moves focus to. -/
inductive Elem where
  | btn (bid : String)
  | link (pid : String) (i : ℕ)
  | navClose
  | hamburgerBtn
  | accBtn (aid : String)
deriving DecidableEq, Repr

/-- The callback stored in a setTimeout call of the script. -/
inductive TimerAction where
  | hideFinish
  | closeDelay
  | debounceShow (bid : String)
  | debounceLeave
  | debounceResize
  | focusClose
  | focusFirstLink
deriving DecidableEq, Repr

/-- A live timer: its numeric handle, its delay and its callback. -/
structure Timer where
  tid : ℕ
  delay : ℚ
  act : TimerAction
deriving DecidableEq, Repr

/-- A dropdown panel (an element matched by .dropdown, with id dropdown-<pid>).
linksTab is the tabindex carried by its anchor descendants, numLinks how many
anchors it has. -/
structure Panel where
  pid : String
  active : Bool
  linksTab : Int
  numLinks : ℕ
deriving DecidableEq, Repr

/-- A desktop menu trigger button (an element with a data-dropdown attribute). -/
structure MenuButton where
  bid : String
  active : Bool
  ariaExpanded : Bool
deriving DecidableEq, Repr

/-- A mobile accordion trigger together with the content element named by its
aria-controls attribute; content is none when that element is absent. -/
structure Accordion where
  aid : String
  expanded : Bool
  content : Option Bool
deriving DecidableEq, Repr

/-- The whole page state visible to the script: nullable collaborator elements
(the Option-valued fields, holding their active or aria-expanded flag when
present), the element collections, and the module-level mutable variables. -/
structure S where
  width : ℕ
  menuWrapperPresent : Bool
  dropdownArea : Option Bool
  backdrop : Option Bool
  mobileNav : Option Bool
  hamburger : Option Bool
  navClosePresent : Bool
  panels : List Panel
  buttons : List MenuButton
  accordions : List Accordion
  bodyOverflowHidden : Bool
  currentOpenDropdown : Option String
  lastFocusedElement : Option String
  mobileMenuOpen : Bool
  focused : Option Elem
  pending : List Timer
  nextTid : ℕ
  dropdownTimeout : Option ℕ
  debounceTimeout : Option ℕ
  transitionDuration : ℚ
deriving DecidableEq, Repr

/-- Function isMobileMode: window.innerWidth is at most MOBILE_BREAKPOINT. -/
def isMobileMode (s : S) : Bool := s.width ≤ MOBILE_BREAKPOINT

/-- Model of clearTimeout on a stored handle: removes the pending timer with
that handle if it is still live, otherwise does nothing. -/
def jsClearTimeout (h : Option ℕ) (s : S) : S :=
  match h with
  | none => s
  | some t => { s with pending := s.pending.filter (fun tm => tm.tid ≠ t) }

/-- Model of setTimeout: registers a fresh timer and returns its handle. -/
def jsSetTimeout (a : TimerAction) (d : ℚ) (s : S) : ℕ × S :=
  (s.nextTid,
   { s with pending := s.pending ++ [⟨s.nextTid, d, a⟩], nextTid := s.nextTid + 1 })

/-- Model of document.getElementById applied to dropdown-<pid>. -/
def findPanel (s : S) (pid : String) : Option Panel :=
  s.panels.find? (fun p => p.pid == pid)

/-- The aria-expanded attribute of the menu button with the given id. -/
def ariaExpandedOf (s : S) (b : String) : Bool :=
  ((s.buttons.find? (fun bt => bt.bid == b)).map MenuButton.ariaExpanded).getD false

/-- Function enableDropdownLinks: sets tabindex 0 on the anchors of a panel. -/
def enableDropdownLinksOn (s : S) (pid : String) : S :=
  { s with panels :=
      s.panels.map (fun p => if p.pid = pid then { p with linksTab := 0 } else p) }

/-- The forEach in showDropdown that removes the active class from every
element matched by .dropdown. -/
def deactivateAllPanels (s : S) : S :=
  { s with panels := s.panels.map (fun p => { p with active := false }) }

/-- The forEach over menuButtons that removes the active class and sets
aria-expanded to false on every trigger button. -/
def deactivateAllButtons (s : S) : S :=
  { s with buttons :=
      s.buttons.map (fun b => { b with active := false, ariaExpanded := false }) }

/-- Function hideDropdowns: inert in mobile mode; otherwise immediately
deactivates the dropdown area, the backdrop and the buttons, and schedules
the delayed structural close after TRANSITION_DURATION, overwriting the
dropdownTimeout handle without clearing it. -/
def hideDropdowns (s : S) : Except String S :=
  if isMobileMode s then .ok s
  else
    match s.dropdownArea with
    | none => .error "TypeError: dropdownArea is null"
    | some _ =>
      match s.backdrop with
      | none => .error "TypeError: backdrop is null"
      | some _ =>
        let s1 := { s with dropdownArea := some false, backdrop := some false }
        let s2 := deactivateAllButtons s1
        let ts := jsSetTimeout .hideFinish s2.transitionDuration s2
        .ok { ts.2 with dropdownTimeout := some ts.1 }

/-- Function showDropdown: inert in mobile mode; clears the pending close
timer; a missing target panel is a silent no-op; a request for the already
open panel with a button argument toggles it closed via hideDropdowns;
otherwise deactivates everything, activates the target panel, area and
backdrop, records the open panel and the trigger, and enables the links. -/
def showDropdown (dropdownId : String) (button : Option String) (s : S) :
    Except String S :=
  if isMobileMode s then .ok s
  else
    let s1 := jsClearTimeout s.dropdownTimeout s
    match findPanel s1 dropdownId with
    | none => .ok s1
    | some _ =>
      if s1.currentOpenDropdown = some dropdownId ∧ button.isSome then
        hideDropdowns s1
      else
        let s2 := deactivateAllPanels s1
        let s3 := deactivateAllButtons s2
        let newPanels := s3.panels.map
          (fun p => if p.pid = dropdownId then { p with active := true } else p)
        let s4 := { s3 with panels := newPanels }
        match s4.dropdownArea with
        | none => .error "TypeError: dropdownArea is null"
        | some _ =>
          match s4.backdrop with
          | none => .error "TypeError: backdrop is null"
          | some _ =>
            let s5 := { s4 with
              dropdownArea := some true, backdrop := some true,
              currentOpenDropdown := some dropdownId }
            let s6 :=
              match button with
              | some b =>
                { s5 with
                  buttons := s5.buttons.map (fun bt =>
                    if bt.bid = b then { bt with active := true, ariaExpanded := true } else bt),
                  lastFocusedElement := some b }
              | none => s5
            .ok (enableDropdownLinksOn s6 dropdownId)

/-- Function openMobileMenu: inert in desktop mode; activates the mobile
panel and backdrop, marks the hamburger expanded, sets the no-scroll
condition, and schedules the focus move to the close control. -/
def openMobileMenu (s : S) : Except String S :=
  if isMobileMode s then
    match s.mobileNav with
    | none => .error "TypeError: mobileNav is null"
    | some _ =>
      match s.backdrop with
      | none => .error "TypeError: backdrop is null"
      | some _ =>
        match s.hamburger with
        | none => .error "TypeError: hamburgerButton is null"
        | some _ =>
          let s1 := { s with
            mobileNav := some true, backdrop := some true, hamburger := some true,
            mobileMenuOpen := true, bodyOverflowHidden := true }
          .ok (jsSetTimeout .focusClose 100 s1).2
  else .ok s

/-- Function closeMobileMenu: deactivates the mobile panel and backdrop,
collapses the hamburger, restores scrolling and focuses the hamburger. -/
def closeMobileMenu (s : S) : Except String S :=
  match s.mobileNav with
  | none => .error "TypeError: mobileNav is null"
  | some _ =>
    match s.backdrop with
    | none => .error "TypeError: backdrop is null"
    | some _ =>
      match s.hamburger with
      | none => .error "TypeError: hamburgerButton is null"
      | some _ =>
        .ok { s with
          mobileNav := some false, backdrop := some false, hamburger := some false,
          mobileMenuOpen := false, bodyOverflowHidden := false,
          focused := some .hamburgerBtn }

/-- Function toggleMobileAccordion: a missing content element is a silent
no-op; otherwise flips the aria-expanded attribute of the trigger and
mirrors the flip onto the active class of the content element. -/
def toggleMobileAccordion (aid : String) (s : S) : S :=
  match s.accordions.find? (fun a => a.aid == aid) with
  | none => s
  | some a =>
    match a.content with
    | none => s
    | some _ =>
      { s with
        accordions := s.accordions.map (fun x =>
          if x.aid = aid then
            { x with expanded := !x.expanded, content := some (!x.expanded) }
          else x) }

/-- Keys distinguished by handleKeyboardNavigation. -/
inductive Key where
  | escape
  | enter
  | space
  | tab
  | other
deriving DecidableEq, Repr

/-- The data-dropdown id of the focused element, when the focused element is
a menu trigger button (the only elements carrying that attribute). -/
def focusedDataDropdown (s : S) : Option String :=
  match s.focused with
  | some (.btn b) => some b
  | _ => none

/-- The id of the focused element when it is a mobile accordion button. -/
def focusedAccBtn (s : S) : Option String :=
  match s.focused with
  | some (.accBtn a) => some a
  | _ => none

/-- The part of handleKeyboardNavigation after the Escape block: the desktop
dropdown section (Enter and Space on trigger buttons, Tab boundary handling
inside an open dropdown) and the mobile accordion section. -/
def kbRest (k : Key) (shift : Bool) (s : S) : Except String S :=
  if isMobileMode s then
    match focusedAccBtn s with
    | some a =>
      if k = .enter ∨ k = .space then .ok (toggleMobileAccordion a s) else .ok s
    | none => .ok s
  else
    match focusedDataDropdown s with
    | some b =>
      if k = .enter ∨ k = .space then
        if ariaExpandedOf s b then hideDropdowns s
        else
          match showDropdown b (some b) s with
          | .error e => .error e
          | .ok s1 => .ok (jsSetTimeout .focusFirstLink 50 s1).2
      else .ok s
    | none =>
      if k = .tab then
        match s.currentOpenDropdown with
        | none => .ok s
        | some pid =>
          match findPanel s pid with
          | none => .ok s
          | some p =>
            if shift ∧ 0 < p.numLinks ∧ s.focused = some (.link pid 0) then
              .ok (match s.lastFocusedElement with
                   | some b => { s with focused := some (.btn b) }
                   | none => s)
            else if ¬ shift ∧ 0 < p.numLinks ∧ s.focused = some (.link pid (p.numLinks - 1)) then
              hideDropdowns s
            else .ok s
      else .ok s

/-- Function handleKeyboardNavigation: the Escape block (mobile panel first,
then open dropdown with focus restoration), falling through to kbRest. -/
def handleKeyboardNavigation (k : Key) (shift : Bool) (s : S) : Except String S :=
  if k = .escape ∧ s.mobileMenuOpen then closeMobileMenu s
  else if k = .escape ∧ s.currentOpenDropdown.isSome then
    match hideDropdowns s with
    | .error e => .error e
    | .ok s1 =>
      .ok (match s1.lastFocusedElement with
           | some b => { s1 with focused := some (.btn b) }
           | none => s1)
  else kbRest k shift s

/-- The body of the closure returned by the debounce function: clears the
shared debounceTimeout handle and registers a fresh timer under it. -/
def debounceInvoke (a : TimerAction) (d : ℚ) (s : S) : S :=
  let s1 := jsClearTimeout s.debounceTimeout s
  let ts := jsSetTimeout a d s1
  { ts.2 with debounceTimeout := some ts.1 }

/-- Function handleMouseEnter: inert in mobile mode; when the event target
resolves to a trigger button, debounces a show request for it. -/
def handleMouseEnter (target : Option String) (s : S) : S :=
  if isMobileMode s then s
  else
    match target with
    | none => s
    | some b => debounceInvoke (.debounceShow b) DEBOUNCE_DELAY s

/-- Function handleMouseLeave: inert in mobile mode; debounces the schedule
of the close delay. -/
def handleMouseLeave (s : S) : S :=
  if isMobileMode s then s
  else debounceInvoke .debounceLeave DEBOUNCE_DELAY s

/-- Function handleResize: on mobile closes an open dropdown via
hideDropdowns, on desktop closes an open mobile panel. -/
def handleResize (s : S) : Except String S :=
  if isMobileMode s then
    if s.currentOpenDropdown.isSome then hideDropdowns s else .ok s
  else
    if s.mobileMenuOpen then closeMobileMenu s else .ok s

/-- Runs the callback of a fired timer. -/
def runTimerAction (a : TimerAction) (s : S) : Except String S :=
  match a with
  | .hideFinish =>
    .ok { s with
      panels := s.panels.map (fun p => { p with active := false, linksTab := -1 }),
      currentOpenDropdown := none }
  | .closeDelay => hideDropdowns s
  | .debounceShow b => showDropdown b (some b) s
  | .debounceLeave =>
    let ts := jsSetTimeout .closeDelay CLOSE_DELAY s
    .ok { ts.2 with dropdownTimeout := some ts.1 }
  | .debounceResize => handleResize s
  | .focusClose =>
    if s.navClosePresent then .ok { s with focused := some .navClose }
    else .error "TypeError: mobileNavClose is null"
  | .focusFirstLink =>
    match s.currentOpenDropdown with
    | none => .ok s
    | some pid =>
      match findPanel s pid with
      | none => .ok s
      | some p =>
        if 0 < p.numLinks then .ok { s with focused := some (.link pid 0) }
        else .ok s

/-- Fires the pending timer with the given handle, if it is still live. -/
def fireTimer (t : ℕ) (s : S) : Except String S :=
  match s.pending.find? (fun tm => tm.tid == t) with
  | none => .ok s
  | some tm =>
    runTimerAction tm.act { s with pending := s.pending.filter (fun x => x.tid ≠ t) }

/-- Whether the two hover listeners on the menu wrapper were attached by
init (they are attached only when both the wrapper and the dropdown area
elements exist). -/
def hoverAttached (s : S) : Bool := s.menuWrapperPresent ∧ s.dropdownArea.isSome

/-- An external stimulus: a browser event reaching one of the listeners that
init attaches, or the firing of a live timer. -/
inductive Op where
  | mouseEnterWrapper (target : Option String)
  | mouseLeaveWrapper
  | clickButton (b : String)
  | keydown (k : Key) (shift : Bool)
  | clickHamburger
  | clickNavClose
  | clickAccordion (a : String)
  | clickBackdrop
  | clickDocument (insideWrapper : Bool)
  | resizeEvent (w : ℕ)
  | fire (tid : ℕ)
deriving DecidableEq, Repr

/-- Dispatch of one stimulus to the handlers wired up by init, including the
existence guards init places around each addEventListener call. -/
def applyOp : Op → S → Except String S
  | .mouseEnterWrapper t, s =>
    if hoverAttached s then
      let s1 := handleMouseEnter t s
      .ok (jsClearTimeout s1.dropdownTimeout s1)
    else .ok s
  | .mouseLeaveWrapper, s =>
    if hoverAttached s then .ok (handleMouseLeave s) else .ok s
  | .clickButton b, s =>
    if (s.buttons.find? (fun bt => bt.bid == b)).isSome then
      if isMobileMode s then .ok s
      else if ariaExpandedOf s b then hideDropdowns s
      else showDropdown b (some b) s
    else .ok s
  | .keydown k sh, s => handleKeyboardNavigation k sh s
  | .clickHamburger, s =>
    if s.hamburger.isSome then openMobileMenu s else .ok s
  | .clickNavClose, s =>
    if s.navClosePresent then closeMobileMenu s else .ok s
  | .clickAccordion a, s =>
    if (s.accordions.find? (fun x => x.aid == a)).isSome then
      .ok (toggleMobileAccordion a s)
    else .ok s
  | .clickBackdrop, s =>
    if s.backdrop.isSome then
      if s.mobileMenuOpen then closeMobileMenu s
      else if s.currentOpenDropdown.isSome then hideDropdowns s
      else .ok s
    else .ok s
  | .clickDocument inside, s =>
    if isMobileMode s ∧ s.currentOpenDropdown.isSome then
      if s.menuWrapperPresent then
        if inside then .ok s else hideDropdowns s
      else .error "TypeError: menuWrapper is null"
    else .ok s
  | .resizeEvent w, s =>
    .ok (debounceInvoke .debounceResize 200 { s with width := w })
  | .fire t, s => fireTimer t s

/-- Runs a sequence of stimuli, stopping at the first thrown exception. -/
def runOps : List Op → S → Except String S
  | [], s => .ok s
  | o :: r, s =>
    match applyOp o s with
    | .error e => .error e
    | .ok s1 => runOps r s1

/-- Runs a sequence of direct show requests, as in the dropdown state
machine of the specification. -/
def runShows : List (String × Option String) → S → Except String S
  | [], s => .ok s
  | (id, b) :: r, s =>
    match showDropdown id b s with
    | .error e => .error e
    | .ok s1 => runShows r s1

/-- Numeric value of a list of decimal digit characters. -/
def digitsVal (cs : List Char) : ℕ :=
  cs.foldl (fun a c => 10 * a + (c.toNat - 48)) 0

/-- Whitespace characters removed by the trim method (the ASCII ones). -/
def isJsSpace (c : Char) : Bool := c = ' ' ∨ c = '\t' ∨ c = '\n' ∨ c = '\r'

/-- Model of the string trim method, over the character list. -/
def listTrim (cs : List Char) : List Char :=
  ((cs.dropWhile isJsSpace).reverse.dropWhile isJsSpace).reverse

/-- Model of the string endsWith method, over character lists. -/
def listEndsWith (cs sfx : List Char) : Bool := sfx.isSuffixOf cs

/-- Model of the JavaScript parseFloat applied to an already trimmed string:
parses the longest numeric prefix (optional sign, integer and fraction
digits, optional exponent) and returns none for NaN.  The value
sign * ipart.fpart * 10 ^ expo is assembled with integer arithmetic and
mkRat so that it evaluates inside the kernel. -/
def jsParseFloat (cs : List Char) : Option ℚ :=
  let sign : ℤ × List Char :=
    match cs with
    | '-' :: r => (-1, r)
    | '+' :: r => (1, r)
    | _ => (1, cs)
  let ip := sign.2.takeWhile Char.isDigit
  let rest1 := sign.2.dropWhile Char.isDigit
  let fp : List Char × List Char :=
    match rest1 with
    | '.' :: r => (r.takeWhile Char.isDigit, r.dropWhile Char.isDigit)
    | _ => ([], rest1)
  if ip.isEmpty ∧ fp.1.isEmpty then none
  else
    let expo : ℤ :=
      match fp.2 with
      | c :: r =>
        if c = 'e' ∨ c = 'E' then
          let es : ℤ × List Char :=
            match r with
            | '-' :: t => (-1, t)
            | '+' :: t => (1, t)
            | _ => (1, r)
          let ed := es.2.takeWhile Char.isDigit
          if ed.isEmpty then 0 else es.1 * (digitsVal ed : ℤ)
        else 0
      | [] => 0
    let base : ℤ := sign.1 * ((digitsVal ip * 10 ^ fp.1.length + digitsVal fp.1 : ℕ) : ℤ)
    let e : ℤ := expo - (fp.1.length : ℤ)
    if 0 ≤ e then some (mkRat (base * (10 : ℤ) ^ e.toNat) 1)
    else some (mkRat base ((10 : ℕ) ^ (-e).toNat))

/-- Multiplication of a rational by 1000, written with mkRat so that it
evaluates inside the kernel; proved below to agree with multiplication. -/
def ratTimes1000 (q : ℚ) : ℚ := mkRat (q.num * 1000) q.den

/-- The startup conversion in init of the styling layer transition-duration
string into the TRANSITION_DURATION variable, as written in the source: the
raw value of the custom property is trimmed; a string ending in the letter s
is treated as seconds and multiplied by 1000; otherwise a string ending in
ms is taken as milliseconds; otherwise the variable keeps its default.  The
result none models the NaN produced when parseFloat fails on a string that
still ends in one of the suffixes. -/
def computeTransitionDuration (raw : String) : Option ℚ :=
  let cssDuration := listTrim raw.data
  if listEndsWith cssDuration ['s'] then (jsParseFloat cssDuration).map ratTimes1000
  else if listEndsWith cssDuration ['m', 's'] then jsParseFloat cssDuration
  else some TRANSITION_DURATION_DEFAULT

/-- A well-formed desktop page state: every collaborator element present,
one dropdown with two links, one accordion section, everything closed. -/
def baseS : S :=
  { width := 1200, menuWrapperPresent := true, dropdownArea := some false,
    backdrop := some false, mobileNav := some false, hamburger := some false,
    navClosePresent := true,
    panels := [⟨"products", false, -1, 2⟩],
    buttons := [⟨"products", false, false⟩],
    accordions := [⟨"acc1", false, some false⟩],
    bodyOverflowHidden := false, currentOpenDropdown := none,
    lastFocusedElement := none, mobileMenuOpen := false, focused := none,
    pending := [], nextTid := 0, dropdownTimeout := none, debounceTimeout := none,
    transitionDuration := 600 }

/-- The baseS page after the products dropdown was opened by its trigger. -/
def desktopOpenS : S :=
  { baseS with
    dropdownArea := some true, backdrop := some true,
    panels := [⟨"products", true, 0, 2⟩], buttons := [⟨"products", true, true⟩],
    currentOpenDropdown := some "products", lastFocusedElement := some "products" }

/-- A mobile-width page state in which a desktop dropdown is still open, as
left behind by a resize from desktop to mobile width. -/
def mobileLeftoverS : S := { desktopOpenS with width := 500 }

/-- A mobile-width page state with the hamburger menu open. -/
def mobileOpenS : S :=
  { baseS with
    width := 500, mobileNav := some true, backdrop := some true,
    hamburger := some true, mobileMenuOpen := true, bodyOverflowHidden := true }

/-- Timer callbacks created through the debounce function (hover enter,
hover leave, resize): they all run through the single shared
debounceTimeout handle. -/
def isDebounceAct : TimerAction → Bool
  | .debounceShow _ => true
  | .debounceLeave => true
  | .debounceResize => true
  | _ => false

/-- Timer bookkeeping invariant: every pending handle is below the
allocator, handles are distinct, and every pending debounce-created timer
is the one recorded in the shared debounceTimeout variable. -/
def TimerInv (s : S) : Prop :=
  (∀ t ∈ s.pending, t.tid < s.nextTid) ∧
  (s.pending.map Timer.tid).Nodup ∧
  (∀ t ∈ s.pending, isDebounceAct t.act = true → s.debounceTimeout = some t.tid)

/-- Invariant of the desktop dropdown set: panel ids are unique (the markup
contract of per-identifier panels), at most one panel carries the active
state, and any active panel is the one recorded in currentOpenDropdown. -/
def DropInv (s : S) : Prop :=
  (s.panels.map Panel.pid).Nodup ∧
  s.panels.countP (fun p => p.active) ≤ 1 ∧
  ∀ p ∈ s.panels, p.active = true → s.currentOpenDropdown = some p.pid

/-- The combined effect on one panel of the three panel traversals of the
show path: deactivate all, activate the target, enable the target links. -/
def showPanelMap (id : String) (p : Panel) : Panel :=
  if p.pid = id then { p with active := true, linksTab := 0 }
  else { p with active := false }

/-- The combined effect on one button of the show path: deactivate all,
then activate the pressed trigger. -/
def showButtonMap (b : String) (bt : MenuButton) : MenuButton :=
  if bt.bid = b then { bt with active := true, ariaExpanded := true }
  else { bt with active := false, ariaExpanded := false }

/-- The state produced by the open path of showDropdown. -/
def showResult (id b : String) (s : S) : S :=
  { jsClearTimeout s.dropdownTimeout s with
    panels := s.panels.map (showPanelMap id),
    buttons := s.buttons.map (showButtonMap b),
    dropdownArea := some true, backdrop := some true,
    currentOpenDropdown := some id, lastFocusedElement := some b }

end MenuScript

namespace MenuScript

/-- Sanity check: the executable multiply-by-1000 agrees with rational
multiplication. -/
theorem ratTimes1000_eq (q : ℚ) : ratTimes1000 q = q * 1000 := by
  rw [ratTimes1000, Rat.mkRat_eq_div]
  calc ((q.num * 1000 : ℤ) : ℚ) / (q.den : ℚ)
      = ((q.num : ℚ) / (q.den : ℚ)) * 1000 := by push_cast; ring
    _ = q * 1000 := by rw [Rat.num_div_den]

/-- Claim C1: evaluation of the code at the failing input.  With the
products dropdown open at desktop width, a resize event to 500 px followed
by the settling of the resize debounce timer leaves the viewport in mobile
mode with the dropdown still active, the dropdown area still active and the
open-dropdown reference still set: handleResize calls hideDropdowns, whose
mobile-mode guard makes the call a no-op, contradicting the comment in
handleResize that announces closing any open desktop dropdown. -/
theorem resize_settle_to_mobile_leaves_dropdown_open :
    (runOps [.resizeEvent 500, .fire 0] desktopOpenS).toOption.map
        (fun t => (isMobileMode t, t.currentOpenDropdown,
                   t.panels.map Panel.active, t.dropdownArea)) =
      some (true, some "products", [true], some true) := by
  decide

/-- Claim C3: evaluation of the startup duration conversion.  A
seconds-suffixed value 0.6s yields 600 ms and an absent value keeps the
default 600 ms, as claimed; but the milliseconds-suffixed value 600ms
yields 600000 ms, because every string ending in ms also ends in s, so the
seconds branch fires first and multiplies parseFloat of 600ms, namely 600,
by 1000; the milliseconds branch of the source is unreachable. -/
theorem transition_duration_parse_eval :
    computeTransitionDuration "0.6s" = some 600 ∧
    computeTransitionDuration "600ms" = some 600000 ∧
    computeTransitionDuration "" = some TRANSITION_DURATION_DEFAULT := by
  refine ⟨?_, ?_, ?_⟩ <;> decide

/-- Clearing a timeout only changes the pending timer list. -/
theorem jsClearTimeout_eq (h : Option ℕ) (s : S) :
    ∃ l, jsClearTimeout h s = { s with pending := l } := by
  cases h with
  | none => exact ⟨s.pending, rfl⟩
  | some t => exact ⟨_, rfl⟩

/-- Clearing a timeout in a state without pending timers does nothing. -/
theorem jsClearTimeout_of_empty (h : Option ℕ) (s : S) (hp : s.pending = []) :
    jsClearTimeout h s = s := by
  cases s
  simp only at hp
  subst hp
  cases h <;> rfl

/-- Characterization of hideDropdowns in desktop mode with the dropdown
area and backdrop elements present. -/
theorem hideDropdowns_eq (s : S) (ar bk : Bool) (hm : isMobileMode s = false)
    (ha : s.dropdownArea = some ar) (hb : s.backdrop = some bk) :
    hideDropdowns s = .ok { s with
      dropdownArea := some false, backdrop := some false,
      buttons := s.buttons.map (fun b => { b with active := false, ariaExpanded := false }),
      pending := s.pending ++ [⟨s.nextTid, s.transitionDuration, .hideFinish⟩],
      nextTid := s.nextTid + 1, dropdownTimeout := some s.nextTid } := by
  simp [hideDropdowns, hm, ha, hb, deactivateAllButtons, jsSetTimeout]

/-- Characterization of the open path of showDropdown: in desktop mode with
the target panel found, no re-request of the already open panel, and the
area and backdrop elements present, the request opens the target. -/
theorem showDropdown_open_eq (id b : String) (s : S) (p : Panel) (ar bk : Bool)
    (hm : isMobileMode s = false) (hf : findPanel s id = some p)
    (hne : ¬ s.currentOpenDropdown = some id) (ha : s.dropdownArea = some ar)
    (hb : s.backdrop = some bk) :
    showDropdown id (some b) s = .ok (showResult id b s) := by
  obtain ⟨lp, hl⟩ := jsClearTimeout_eq s.dropdownTimeout s
  have hf1 : findPanel { s with pending := lp } id = some p := by
    simpa [findPanel] using hf
  simp only [showDropdown, hm, Bool.false_eq_true, if_false, hl]
  rw [hf1]
  rw [if_neg (by simp [hne])]
  simp only [deactivateAllPanels, deactivateAllButtons, enableDropdownLinksOn,
    ha, hb, showResult, hl, Except.ok.injEq, S.mk.injEq, List.map_map,
    true_and, and_true]
  refine ⟨?_, ?_⟩
  · refine List.map_congr_left (fun q _ => ?_)
    by_cases hq : q.pid = id <;> simp [showPanelMap, hq, Function.comp]
  · refine List.map_congr_left (fun bt _ => ?_)
    by_cases hbt : bt.bid = b <;> simp [showButtonMap, hbt, Function.comp]

/-- Characterization of the toggle-off path of showDropdown: a show request
with a button argument for the panel that is already recorded open runs
hideDropdowns after clearing the pending close timer. -/
theorem showDropdown_toggle_eq (id b : String) (s : S) (p : Panel)
    (hm : isMobileMode s = false) (hf : findPanel s id = some p)
    (heq : s.currentOpenDropdown = some id) :
    showDropdown id (some b) s = hideDropdowns (jsClearTimeout s.dropdownTimeout s) := by
  obtain ⟨lp, hl⟩ := jsClearTimeout_eq s.dropdownTimeout s
  have hf1 : findPanel { s with pending := lp } id = some p := by
    simpa [findPanel] using hf
  simp only [showDropdown, hm, Bool.false_eq_true, if_false, hl]
  rw [hf1]
  rw [if_pos (by simp [heq])]

/-- Mapping a pid-preserving function over the panels maps the panel found
by findPanel. -/
theorem find?_map_pid_preserve (l : List Panel) (idq : String) (f : Panel → Panel)
    (hpid : ∀ p, (f p).pid = p.pid) (p : Panel)
    (h : l.find? (fun x => x.pid == idq) = some p) :
    (l.map f).find? (fun x => x.pid == idq) = some (f p) := by
  induction l with
  | nil => simp at h
  | cons y r ih =>
    by_cases hy : y.pid = idq
    · rw [List.find?_cons_of_pos _ (by simpa using hy)] at h
      cases h
      simp only [List.map_cons]
      rw [List.find?_cons_of_pos _ (by simp [hpid, hy])]
    · rw [List.find?_cons_of_neg _ (by simpa using hy)] at h
      simp only [List.map_cons]
      rw [List.find?_cons_of_neg _ (by simp [hpid, hy])]
      exact ih h

/-- Firing the single pending animation timer performs the structural close:
every panel loses the active class and keyboard reachability, and the
open-dropdown reference is cleared. -/
theorem fireTimer_hideFinish (s : S) (n : ℕ) (d : ℚ)
    (hp : s.pending = [⟨n, d, .hideFinish⟩]) :
    fireTimer n s = .ok { s with
      pending := [],
      panels := s.panels.map (fun p => { p with active := false, linksTab := -1 }),
      currentOpenDropdown := none } := by
  cases s
  simp only at hp
  subst hp
  simp [fireTimer, runTimerAction]

/-- Whatever hideDropdowns does when it returns normally, it leaves the
panels, the open-dropdown reference, the viewport and the focus untouched. -/
theorem hideDropdowns_ok_inert (s s1 : S) (h : hideDropdowns s = .ok s1) :
    s1.panels = s.panels ∧ s1.currentOpenDropdown = s.currentOpenDropdown ∧
    s1.width = s.width ∧ s1.focused = s.focused ∧
    s1.lastFocusedElement = s.lastFocusedElement ∧
    s1.mobileMenuOpen = s.mobileMenuOpen ∧ s1.accordions = s.accordions := by
  unfold hideDropdowns at h
  split at h
  · cases h; exact ⟨rfl, rfl, rfl, rfl, rfl, rfl, rfl⟩
  · split at h
    · cases h
    · split at h
      · cases h
      · cases h; exact ⟨rfl, rfl, rfl, rfl, rfl, rfl, rfl⟩

/-- Claim C2, counterexample: when the backdrop element is absent but the
target panel exists, clicking a menu trigger at desktop width throws a
TypeError inside showDropdown instead of silently skipping, refuting the
claim that every operation is a silent no-op when a collaborator element
is absent. -/
theorem showDropdown_throws_without_backdrop :
    applyOp (.clickButton "products") { baseS with backdrop := none } =
      .error "TypeError: backdrop is null" := by
  rfl

/-- Claim C2 (amended): the per-call element lookups are guarded and their
absence is a silent no-op — a show request whose target panel does not
resolve only clears the pending close timer, an accordion toggle whose
content element is missing does nothing — and listener attachment in init
is itself guarded, so a missing hamburger button or menu wrapper leaves the
corresponding events without effect rather than halting anything; but the
shared collaborators (dropdown area, backdrop, mobile panel, hamburger,
close control) are dereferenced without existence checks inside the
operations, so their absence makes the operation throw. -/
theorem lookup_guards_amended :
    (∀ s id b, isMobileMode s = false → findPanel s id = none →
      showDropdown id b s = .ok (jsClearTimeout s.dropdownTimeout s)) ∧
    (∀ s a acc, s.accordions.find? (fun x => x.aid == a) = some acc →
      acc.content = none → toggleMobileAccordion a s = s) ∧
    (∀ s, s.hamburger = none → applyOp .clickHamburger s = .ok s) ∧
    (∀ s b, s.menuWrapperPresent = false → applyOp (.mouseEnterWrapper b) s = .ok s) := by
  refine ⟨?_, ?_, ?_, ?_⟩
  · intro s id b hm hf
    obtain ⟨l, hl⟩ := jsClearTimeout_eq s.dropdownTimeout s
    have hf1 : findPanel { s with pending := l } id = none := by
      simpa [findPanel] using hf
    simp only [showDropdown, hm, Bool.false_eq_true, if_false, hl, hf1]
  · intro s a acc hfind hc
    simp [toggleMobileAccordion, hfind, hc]
  · intro s hh
    simp [applyOp, hh]
  · intro s b hw
    simp [applyOp, hoverAttached, hw]

/-- Witness for the amended claim C2, at the base page with an unresolvable
panel id. -/
theorem lookup_guards_amended_witness :
    isMobileMode baseS = false ∧ findPanel baseS "nope" = none ∧
    showDropdown "nope" none baseS = .ok (jsClearTimeout baseS.dropdownTimeout baseS) :=
  ⟨by decide, by decide, lookup_guards_amended.1 baseS "nope" none (by decide) (by decide)⟩

/-- Claim C9: the hamburger click handler only ever invokes openMobileMenu.
First part: whenever the click returns normally, it never turns the
mobile-open flag off.  Second part: from any state already showing the open
mobile panel, a hamburger click returns normally and leaves the panel open
with all its open-state observables intact (opening is idempotent). -/
theorem hamburger_click_open_only :
    (∀ s s1, applyOp .clickHamburger s = .ok s1 → s.mobileMenuOpen = true →
      s1.mobileMenuOpen = true) ∧
    (∀ s, s.mobileMenuOpen = true → s.mobileNav = some true → s.backdrop = some true →
      s.hamburger = some true → s.bodyOverflowHidden = true →
      ∃ s1, applyOp .clickHamburger s = .ok s1 ∧ s1.mobileMenuOpen = true ∧
        s1.mobileNav = some true ∧ s1.backdrop = some true ∧
        s1.hamburger = some true ∧ s1.bodyOverflowHidden = true) := by
  constructor
  · intro s s1 h hm
    simp only [applyOp] at h
    split at h
    · unfold openMobileMenu at h
      split at h
      · split at h
        · cases h
        · split at h
          · cases h
          · split at h
            · cases h
            · cases h; simp [jsSetTimeout]
      · cases h; exact hm
    · cases h; exact hm
  · intro s hm hn hb hh ho
    by_cases hmob : isMobileMode s
    · refine ⟨(jsSetTimeout .focusClose 100 { s with
        mobileNav := some true, backdrop := some true, hamburger := some true,
        mobileMenuOpen := true, bodyOverflowHidden := true }).2,
        ?_, ?_, ?_, ?_, ?_, ?_⟩ <;>
      simp [applyOp, openMobileMenu, hh, hn, hb, hmob, jsSetTimeout]
    · refine ⟨s, ?_, hm, hn, hb, hh, ho⟩
      simp [applyOp, openMobileMenu, hh, hmob]

/-- Witness for claim C9: a hamburger click on the open mobile panel. -/
theorem hamburger_click_open_only_witness :
    mobileOpenS.mobileMenuOpen = true ∧
    ∃ s1, applyOp .clickHamburger mobileOpenS = .ok s1 ∧ s1.mobileMenuOpen = true ∧
      s1.mobileNav = some true ∧ s1.backdrop = some true ∧
      s1.hamburger = some true ∧ s1.bodyOverflowHidden = true :=
  ⟨by decide, hamburger_click_open_only.2 mobileOpenS (by decide) (by decide) (by decide)
    (by decide) (by decide)⟩

/-- Toggling an accordion maps the section found by the handler to its
flipped version. -/
theorem find?_accordion_toggle (l : List Accordion) (a : String) (acc : Accordion)
    (h : l.find? (fun x => x.aid == a) = some acc) :
    (l.map (fun x => if x.aid = a then
        { x with expanded := !x.expanded, content := some (!x.expanded) } else x)).find?
        (fun x => x.aid == a) =
      some { acc with expanded := !acc.expanded, content := some (!acc.expanded) } := by
  induction l with
  | nil => simp at h
  | cons y r ih =>
    by_cases hy : y.aid = a
    · rw [List.find?_cons_of_pos _ (by simpa using hy)] at h
      cases h
      simp only [List.map_cons, if_pos hy]
      rw [List.find?_cons_of_pos _ (by simpa using hy)]
    · rw [List.find?_cons_of_neg _ (by simpa using hy)] at h
      simp only [List.map_cons, if_neg hy]
      rw [List.find?_cons_of_neg _ (by simpa using hy)]
      exact ih h

/-- Claim C10: clicking a mobile accordion trigger toggles its section in
every viewport mode — the click handler dispatches to toggleMobileAccordion
with no mobile-mode check, so the flip of the expanded flag and of the
content visibility also happens at desktop widths; by contrast the keyboard
path (Enter or Space on a focused accordion button) is gated by the
mobile-mode check and does nothing at desktop widths. -/
theorem accordion_click_ungated_by_mode :
    (∀ s a acc c, s.accordions.find? (fun x => x.aid == a) = some acc →
      acc.content = some c →
      ∃ s1, applyOp (.clickAccordion a) s = .ok s1 ∧
        s1.accordions.find? (fun x => x.aid == a) =
          some { acc with expanded := !acc.expanded, content := some (!acc.expanded) }) ∧
    (∀ s a, isMobileMode s = false → s.focused = some (.accBtn a) →
      handleKeyboardNavigation .enter false s = .ok s ∧
      handleKeyboardNavigation .space false s = .ok s) := by
  constructor
  · intro s a acc c hfind hc
    refine ⟨toggleMobileAccordion a s, ?_, ?_⟩
    · simp [applyOp, hfind]
    · have h2 : toggleMobileAccordion a s = { s with
        accordions := s.accordions.map (fun x => if x.aid = a then
          { x with expanded := !x.expanded, content := some (!x.expanded) } else x) } := by
        simp [toggleMobileAccordion, hfind, hc]
      rw [h2]
      simpa using find?_accordion_toggle s.accordions a acc hfind
  · intro s a hm hf
    constructor <;>
      simp [handleKeyboardNavigation, kbRest, hm, focusedDataDropdown, hf]

/-- The dropdown invariant only looks at the panels and the open-dropdown
reference. -/
theorem dropInv_congr (s s1 : S) (hp : s1.panels = s.panels)
    (hc : s1.currentOpenDropdown = s.currentOpenDropdown) (inv : DropInv s) :
    DropInv s1 := by
  unfold DropInv at inv ⊢
  rw [hp, hc]
  exact inv

/-- A list of panels with unique ids has at most one entry with a given id. -/
theorem nodup_countP_pid_le_one (l : List Panel) (id : String)
    (h : (l.map Panel.pid).Nodup) : l.countP (fun p => p.pid == id) ≤ 1 := by
  induction l with
  | nil => simp
  | cons p r ih =>
    simp only [List.map_cons, List.nodup_cons] at h
    by_cases hp : p.pid = id
    · rw [List.countP_cons_of_pos _ _ (by simpa using hp)]
      have hzero : r.countP (fun q => q.pid == id) = 0 := by
        rw [List.countP_eq_zero]
        intro q hq hqid
        exact h.1 (by
          have : q.pid = p.pid := by rw [hp]; simpa using hqid
          rw [← this]
          exact List.mem_map_of_mem Panel.pid hq)
      omega
    · rw [List.countP_cons_of_neg _ _ (by simpa using hp)]
      exact ih h.2

/-- The dropdown invariant holds of a state whose panels are the show-path
image of panels with unique ids and whose open reference is the target. -/
theorem dropInv_of_showPanels (id : String) (l : List Panel) (s1 : S)
    (hn : (l.map Panel.pid).Nodup) (hp : s1.panels = l.map (showPanelMap id))
    (hc : s1.currentOpenDropdown = some id) : DropInv s1 := by
  have hpid : ∀ p, (showPanelMap id p).pid = p.pid := by
    intro p
    by_cases hq : p.pid = id <;> simp [showPanelMap, hq]
  have hact : ∀ p, (showPanelMap id p).active = (p.pid == id) := by
    intro p
    by_cases hq : p.pid = id <;> simp [showPanelMap, hq]
  refine ⟨?_, ?_, ?_⟩
  · rw [hp, List.map_map]
    have : (Panel.pid ∘ showPanelMap id) = Panel.pid := funext (fun p => hpid p)
    rw [this]
    exact hn
  · rw [hp, List.countP_map]
    have : ((fun p : Panel => p.active) ∘ showPanelMap id) =
        (fun p : Panel => p.pid == id) := by
      funext p
      simpa [Function.comp] using hact p
    rw [this]
    exact nodup_countP_pid_le_one l id hn
  · intro p1 hp1 hact1
    rw [hp] at hp1
    obtain ⟨p, hpm, rfl⟩ := List.mem_map.mp hp1
    rw [hc]
    have := hact p
    rw [hact1] at this
    have hpidq : p.pid = id := by simpa using this.symm
    rw [hpid p, hpidq]

/-- One show request preserves the dropdown invariant. -/
theorem showDropdown_preserves_dropInv (id : String) (b : Option String) (s s1 : S)
    (h : showDropdown id b s = .ok s1) (inv : DropInv s) : DropInv s1 := by
  obtain ⟨lp, hl⟩ := jsClearTimeout_eq s.dropdownTimeout s
  have invc : DropInv (jsClearTimeout s.dropdownTimeout s) := by
    exact dropInv_congr _ _ (by rw [hl]) (by rw [hl]) inv
  have hpanc : (jsClearTimeout s.dropdownTimeout s).panels = s.panels := by rw [hl]
  simp only [showDropdown] at h
  split at h
  · cases h; exact inv
  · split at h
    · cases h; exact invc
    · split at h
      · obtain ⟨hp, hc, -, -, -, -, -⟩ := hideDropdowns_ok_inert _ _ h
        exact dropInv_congr _ _ hp hc invc
      · split at h
        · cases h
        · split at h
          · cases h
          · split at h <;>
            · cases h
              refine dropInv_of_showPanels id s.panels _ inv.1 ?_ rfl
              show ((((jsClearTimeout s.dropdownTimeout s).panels.map
                  _).map _).map _) = _
              rw [List.map_map, List.map_map, hpanc]
              refine List.map_congr_left (fun p _ => ?_)
              by_cases hq : p.pid = id <;>
                simp [showPanelMap, hq, Function.comp]

/-- Claim C5: for every sequence of show requests (in any mode: requests at
mobile width are inert) starting from a state satisfying the dropdown
invariant, every normally reached state still satisfies it — at most one
dropdown panel carries the active state and any active panel is the one
recorded as currently open. -/
theorem show_requests_at_most_one_active (s : S) (l : List (String × Option String))
    (s1 : S) (hinv : DropInv s) (h : runShows l s = .ok s1) : DropInv s1 := by
  induction l generalizing s with
  | nil =>
    unfold runShows at h
    cases h
    exact hinv
  | cons x r ih =>
    obtain ⟨id, b⟩ := x
    unfold runShows at h
    cases hsd : showDropdown id b s with
    | error e => rw [hsd] at h; cases h
    | ok s2 =>
      rw [hsd] at h
      exact ih s2 (showDropdown_preserves_dropInv id b s s2 hsd hinv) h

/-- Witness for claim C5: one show request on the base page yields the open
page, and both satisfy the invariant. -/
theorem show_requests_at_most_one_active_witness :
    DropInv baseS ∧ DropInv desktopOpenS :=
  ⟨by unfold DropInv; decide,
   show_requests_at_most_one_active baseS [("products", some "products")]
    desktopOpenS (by unfold DropInv; decide) (by rfl)⟩

/-- Claim C6: in desktop mode, from the closed state, a show request with a
trigger for an existing panel opens it, and a second show request with the
same id and trigger toggles it back: it immediately starts the close (a
single pending animation timer carrying the configured duration), and when
that timer fires the system is back in the closed state — no panel active,
open-dropdown reference cleared, area and backdrop inactive. -/
theorem same_id_double_show_roundtrip (id b : String) (s : S) (p : Panel) (ar bk : Bool)
    (hm : isMobileMode s = false) (hf : findPanel s id = some p)
    (ha : s.dropdownArea = some ar) (hb : s.backdrop = some bk)
    (hc : s.currentOpenDropdown = none) (hpend : s.pending = []) :
    ∃ s1 s2 s3,
      showDropdown id (some b) s = .ok s1 ∧ s1.currentOpenDropdown = some id ∧
      showDropdown id (some b) s1 = .ok s2 ∧
      s2.pending = [⟨s.nextTid, s.transitionDuration, .hideFinish⟩] ∧
      fireTimer s.nextTid s2 = .ok s3 ∧
      s3.currentOpenDropdown = none ∧ (∀ q ∈ s3.panels, q.active = false) ∧
      s3.dropdownArea = some false ∧ s3.backdrop = some false := by
  obtain ⟨lp, hl⟩ := jsClearTimeout_eq s.dropdownTimeout s
  have hlp : lp = [] := by
    have hq : (jsClearTimeout s.dropdownTimeout s).pending = [] := by
      rw [jsClearTimeout_of_empty _ _ hpend]
      exact hpend
    rw [hl] at hq
    simpa using hq
  subst hlp
  have h1 := showDropdown_open_eq id b s p ar bk hm hf (by simp [hc]) ha hb
  have hs1 : showResult id b s = { s with
      pending := [], panels := s.panels.map (showPanelMap id),
      buttons := s.buttons.map (showButtonMap b),
      dropdownArea := some true, backdrop := some true,
      currentOpenDropdown := some id, lastFocusedElement := some b } := by
    rw [showResult, hl]
  rw [hs1] at h1
  have hpid : ∀ q : Panel, (showPanelMap id q).pid = q.pid := by
    intro q
    by_cases hq : q.pid = id <;> simp [showPanelMap, hq]
  have hf1 := find?_map_pid_preserve s.panels id (showPanelMap id) hpid p
    (by simpa [findPanel] using hf)
  have h2 := showDropdown_toggle_eq id b { s with
      pending := [], panels := s.panels.map (showPanelMap id),
      buttons := s.buttons.map (showButtonMap b),
      dropdownArea := some true, backdrop := some true,
      currentOpenDropdown := some id, lastFocusedElement := some b }
    (showPanelMap id p)
    (by simpa [isMobileMode] using hm) (by simpa [findPanel] using hf1) (by simp)
  rw [jsClearTimeout_of_empty _ _ (by simp)] at h2
  have h2' := hideDropdowns_eq { s with
      pending := [], panels := s.panels.map (showPanelMap id),
      buttons := s.buttons.map (showButtonMap b),
      dropdownArea := some true, backdrop := some true,
      currentOpenDropdown := some id, lastFocusedElement := some b }
    true true (by simpa [isMobileMode] using hm) rfl rfl
  rw [h2'] at h2
  refine ⟨_, _, _, h1, rfl, h2, by simp,
    fireTimer_hideFinish _ s.nextTid s.transitionDuration (by simp), rfl, ?_, rfl, rfl⟩
  intro q hq
  simp only [List.mem_map] at hq
  obtain ⟨q0, -, rfl⟩ := hq
  rfl

/-- Witness for claim C6: the double show request on the products panel of
the base page. -/
theorem same_id_double_show_roundtrip_witness :
    isMobileMode baseS = false ∧
    findPanel baseS "products" = some ⟨"products", false, -1, 2⟩ ∧
    ∃ s1 s2 s3,
      showDropdown "products" (some "products") baseS = .ok s1 ∧
      s1.currentOpenDropdown = some "products" ∧
      showDropdown "products" (some "products") s1 = .ok s2 ∧
      s2.pending = [⟨baseS.nextTid, baseS.transitionDuration, .hideFinish⟩] ∧
      fireTimer baseS.nextTid s2 = .ok s3 ∧
      s3.currentOpenDropdown = none ∧ (∀ q ∈ s3.panels, q.active = false) ∧
      s3.dropdownArea = some false ∧ s3.backdrop = some false :=
  ⟨by decide, by decide,
   same_id_double_show_roundtrip "products" "products" baseS ⟨"products", false, -1, 2⟩
     false false (by decide) (by decide) (by decide) (by decide) (by decide) (by decide)⟩

/-- Claim C7: a hide request on an open dropdown immediately deactivates the
dropdown area, the backdrop and the trigger buttons, while the open panel
itself stays active and its links keep tabindex 0 (hypotheses hact and
htab), and a single timer carrying the configured animation duration is
scheduled; when that timer fires, every panel loses the active class, the
links of every panel get tabindex -1, and the open-dropdown reference
becomes null. -/
theorem hide_request_delayed_unreachability (s : S) (pid : String) (p : Panel)
    (ar bk : Bool) (hm : isMobileMode s = false) (ha : s.dropdownArea = some ar)
    (hb : s.backdrop = some bk) (hcur : s.currentOpenDropdown = some pid)
    (hf : findPanel s pid = some p) (hact : p.active = true) (htab : p.linksTab = 0)
    (hpend : s.pending = []) :
    ∃ s1 s2,
      hideDropdowns s = .ok s1 ∧
      s1.dropdownArea = some false ∧ s1.backdrop = some false ∧
      (∀ bt ∈ s1.buttons, bt.active = false ∧ bt.ariaExpanded = false) ∧
      findPanel s1 pid = some p ∧ p.active = true ∧ p.linksTab = 0 ∧
      s1.currentOpenDropdown = some pid ∧
      s1.pending = [⟨s.nextTid, s.transitionDuration, .hideFinish⟩] ∧
      fireTimer s.nextTid s1 = .ok s2 ∧
      (∀ q ∈ s2.panels, q.active = false ∧ q.linksTab = -1) ∧
      s2.currentOpenDropdown = none := by
  have h1 := hideDropdowns_eq s ar bk hm ha hb
  refine ⟨_, _, h1, rfl, rfl, ?_, hf, hact, htab, hcur, by simp [hpend],
    fireTimer_hideFinish _ s.nextTid s.transitionDuration (by simp [hpend]), ?_, rfl⟩
  · intro bt hbt
    simp only [List.mem_map] at hbt
    obtain ⟨bt0, -, rfl⟩ := hbt
    exact ⟨rfl, rfl⟩
  · intro q hq
    simp only [List.mem_map] at hq
    obtain ⟨q0, -, rfl⟩ := hq
    exact ⟨rfl, rfl⟩

/-- Witness for claim C7: a hide request on the open products page. -/
theorem hide_request_delayed_unreachability_witness :
    desktopOpenS.currentOpenDropdown = some "products" ∧
    findPanel desktopOpenS "products" = some ⟨"products", true, 0, 2⟩ ∧
    ∃ s1 s2,
      hideDropdowns desktopOpenS = .ok s1 ∧
      s1.dropdownArea = some false ∧ s1.backdrop = some false ∧
      (∀ bt ∈ s1.buttons, bt.active = false ∧ bt.ariaExpanded = false) ∧
      findPanel s1 "products" = some ⟨"products", true, 0, 2⟩ ∧
      (⟨"products", true, 0, 2⟩ : Panel).active = true ∧
      (⟨"products", true, 0, 2⟩ : Panel).linksTab = 0 ∧
      s1.currentOpenDropdown = some "products" ∧
      s1.pending = [⟨desktopOpenS.nextTid, desktopOpenS.transitionDuration, .hideFinish⟩] ∧
      fireTimer desktopOpenS.nextTid s1 = .ok s2 ∧
      (∀ q ∈ s2.panels, q.active = false ∧ q.linksTab = -1) ∧
      s2.currentOpenDropdown = none :=
  ⟨by decide, by decide,
   hide_request_delayed_unreachability desktopOpenS "products" ⟨"products", true, 0, 2⟩
     true true (by decide) (by decide) (by decide) (by decide) (by decide) (by decide)
     (by decide) (by decide)⟩

/-- Claim C8, counterexample: at mobile width with a dropdown still open
(the state left behind by the resize bug of claim C1), an Escape keydown
moves focus to the recorded trigger but does not close the dropdown — the
hideDropdowns call inside the Escape branch is a no-op in mobile mode — so
the claim that every Escape keydown with a dropdown open closes that
dropdown is false. -/
theorem escape_at_mobile_width_leaves_dropdown :
    (applyOp (.keydown .escape false) mobileLeftoverS).toOption.map
        (fun t => (t.currentOpenDropdown, t.panels.map Panel.active, t.focused)) =
      some (some "products", [true], some (.btn "products")) := by
  decide

/-- Claim C8 (amended): on an Escape keydown, if the mobile panel is open
the handler does exactly closeMobileMenu and stops; otherwise, if a
dropdown is open and the viewport is at desktop width, the handler starts
the dropdown close (area and backdrop deactivated at once, the structural
close pending behind the animation timer) and moves focus to the trigger
recorded when the dropdown was opened, leaving the mobile state untouched;
at mobile width the close call inside the Escape branch is a no-op and only
the focus restoration happens. -/
theorem escape_handling_amended :
    (∀ s sh, s.mobileMenuOpen = true →
      handleKeyboardNavigation .escape sh s = closeMobileMenu s) ∧
    (∀ s sh pid b ar bk, s.mobileMenuOpen = false → isMobileMode s = false →
      s.currentOpenDropdown = some pid → s.lastFocusedElement = some b →
      s.dropdownArea = some ar → s.backdrop = some bk →
      ∃ s1, handleKeyboardNavigation .escape sh s = .ok s1 ∧
        s1.dropdownArea = some false ∧ s1.backdrop = some false ∧
        s1.focused = some (.btn b) ∧
        (∃ t ∈ s1.pending, t.act = .hideFinish ∧ t.delay = s.transitionDuration) ∧
        s1.mobileNav = s.mobileNav ∧ s1.mobileMenuOpen = false ∧
        s1.currentOpenDropdown = some pid) := by
  constructor
  · intro s sh hmo
    simp [handleKeyboardNavigation, hmo]
  · intro s sh pid b ar bk hmo hm hc hlf ha hb
    have h1 := hideDropdowns_eq s ar bk hm ha hb
    refine ⟨{ s with
        dropdownArea := some false, backdrop := some false,
        buttons := s.buttons.map (fun bt => { bt with active := false, ariaExpanded := false }),
        pending := s.pending ++ [⟨s.nextTid, s.transitionDuration, .hideFinish⟩],
        nextTid := s.nextTid + 1, dropdownTimeout := some s.nextTid,
        focused := some (.btn b) }, ?_, rfl, rfl, rfl,
      ⟨⟨s.nextTid, s.transitionDuration, .hideFinish⟩, by simp, rfl, rfl⟩, rfl, hmo, hc⟩
    simp only [handleKeyboardNavigation]
    rw [if_neg (by simp [hmo])]
    rw [if_pos (by simp [hc])]
    rw [h1]
    simp [hlf]

/-- Witness for the amended claim C8: Escape on the open products page. -/
theorem escape_handling_amended_witness :
    desktopOpenS.mobileMenuOpen = false ∧
    desktopOpenS.currentOpenDropdown = some "products" ∧
    ∃ s1, handleKeyboardNavigation .escape false desktopOpenS = .ok s1 ∧
      s1.dropdownArea = some false ∧ s1.backdrop = some false ∧
      s1.focused = some (.btn "products") ∧
      (∃ t ∈ s1.pending, t.act = .hideFinish ∧
        t.delay = desktopOpenS.transitionDuration) ∧
      s1.mobileNav = desktopOpenS.mobileNav ∧ s1.mobileMenuOpen = false ∧
      s1.currentOpenDropdown = some "products" :=
  ⟨by decide, by decide,
   escape_handling_amended.2 desktopOpenS false "products" "products" true true
     (by decide) (by decide) (by decide) (by decide) (by decide) (by decide)⟩

/-- The timer invariant only looks at the timer bookkeeping fields. -/
theorem timerInv_of_fields (s s1 : S) (hp : s1.pending = s.pending)
    (hn : s1.nextTid = s.nextTid) (hd : s1.debounceTimeout = s.debounceTimeout)
    (inv : TimerInv s) : TimerInv s1 := by
  unfold TimerInv at inv ⊢
  rw [hp, hn, hd]
  exact inv

/-- Filtering the pending list preserves the timer invariant. -/
theorem timerInv_filter (s : S) (f : Timer → Bool) (inv : TimerInv s) :
    TimerInv { s with pending := s.pending.filter f } := by
  obtain ⟨h1, h2, h3⟩ := inv
  refine ⟨?_, ?_, ?_⟩
  · intro t ht
    exact h1 t (List.mem_of_mem_filter ht)
  · exact List.Nodup.sublist (List.Sublist.map Timer.tid (List.filter_sublist _)) h2
  · intro t ht hd
    exact h3 t (List.mem_of_mem_filter ht) hd

/-- Clearing any timeout preserves the timer invariant. -/
theorem timerInv_jsClearTimeout (h : Option ℕ) (s : S) (inv : TimerInv s) :
    TimerInv (jsClearTimeout h s) := by
  cases h with
  | none => exact inv
  | some t => exact timerInv_filter s _ inv

/-- Scheduling a timer whose callback is not debounce-created preserves the
timer invariant. -/
theorem timerInv_append_nondeb (s : S) (a : TimerAction) (d : ℚ)
    (hnd : isDebounceAct a = false) (inv : TimerInv s) :
    TimerInv { s with
      pending := s.pending ++ [⟨s.nextTid, d, a⟩],
      nextTid := s.nextTid + 1 } := by
  obtain ⟨h1, h2, h3⟩ := inv
  refine ⟨?_, ?_, ?_⟩
  · intro t ht
    simp only [List.mem_append, List.mem_singleton] at ht
    rcases ht with ht | rfl
    · exact Nat.lt_succ_of_lt (h1 t ht)
    · exact Nat.lt_succ_self _
  · rw [List.map_append]
    refine List.Nodup.append h2 (by simp) ?_
    intro x hx hx2
    simp only [List.map_cons, List.map_nil, List.mem_singleton] at hx2
    subst hx2
    obtain ⟨t, ht, htid⟩ := List.mem_map.mp hx
    exact absurd (htid ▸ h1 t ht) (lt_irrefl _)
  · intro t ht hd
    simp only [List.mem_append, List.mem_singleton] at ht
    rcases ht with ht | rfl
    · exact h3 t ht hd
    · rw [show Timer.act ⟨s.nextTid, d, a⟩ = a from rfl, hnd] at hd
      cases hd

/-- The nextTid allocator is untouched by clearing a timeout. -/
theorem jsClearTimeout_nextTid (h : Option ℕ) (s : S) :
    (jsClearTimeout h s).nextTid = s.nextTid := by
  cases h <;> rfl

/-- A debounce invocation preserves the timer invariant: it clears the
shared handle (removing the unique pending debounce timer, if any) and
records the fresh timer in the handle. -/
theorem timerInv_debounceInvoke (a : TimerAction) (d : ℚ) (s : S) (inv : TimerInv s) :
    TimerInv (debounceInvoke a d s) := by
  obtain ⟨h1, h2, h3⟩ := inv
  have hsub : (jsClearTimeout s.debounceTimeout s).pending.Sublist s.pending := by
    cases hdb : s.debounceTimeout with
    | none => exact List.Sublist.refl _
    | some hh => exact List.filter_sublist _
  have hmem : ∀ t, t ∈ (jsClearTimeout s.debounceTimeout s).pending → t ∈ s.pending :=
    fun t ht => hsub.mem ht
  have hnodeb : ∀ t ∈ (jsClearTimeout s.debounceTimeout s).pending,
      isDebounceAct t.act = false := by
    intro t ht
    cases hval : isDebounceAct t.act with
    | false => rfl
    | true =>
      exfalso
      have heq := h3 t (hmem t ht) hval
      cases hdb : s.debounceTimeout with
      | none => rw [hdb] at heq; cases heq
      | some hh =>
        rw [hdb] at heq ht
        have htid : t.tid = hh := by
          have := heq.symm
          injection this
        simp only [jsClearTimeout] at ht
        have := (List.mem_filter.mp ht).2
        simp [htid] at this
  simp only [debounceInvoke, jsSetTimeout, jsClearTimeout_nextTid]
  refine ⟨?_, ?_, ?_⟩
  · intro t ht
    simp only [List.mem_append, List.mem_singleton] at ht
    rcases ht with ht | rfl
    · exact Nat.lt_succ_of_lt (h1 t (hmem t ht))
    · exact Nat.lt_succ_self _
  · rw [List.map_append]
    refine List.Nodup.append (List.Nodup.sublist (hsub.map Timer.tid) h2) (by simp) ?_
    intro x hx hx2
    simp only [List.map_cons, List.map_nil, List.mem_singleton] at hx2
    subst hx2
    obtain ⟨t, ht, htid⟩ := List.mem_map.mp hx
    exact absurd (htid ▸ h1 t (hmem t ht)) (lt_irrefl _)
  · intro t ht hd
    simp only [List.mem_append, List.mem_singleton] at ht
    rcases ht with ht | rfl
    · rw [hnodeb t ht] at hd
      cases hd
    · rfl

/-- hideDropdowns preserves the timer invariant: it only appends a fresh
non-debounce animation timer. -/
theorem timerInv_hideDropdowns (s s1 : S) (h : hideDropdowns s = .ok s1)
    (inv : TimerInv s) : TimerInv s1 := by
  unfold hideDropdowns at h
  split at h
  · cases h; exact inv
  · split at h
    · cases h
    · split at h
      · cases h
      · cases h
        exact timerInv_of_fields _ _ rfl rfl rfl
          (timerInv_append_nondeb s .hideFinish s.transitionDuration rfl inv)

/-- showDropdown preserves the timer invariant: it only clears the close
timer, possibly delegating to hideDropdowns. -/
theorem timerInv_showDropdown (id : String) (b : Option String) (s s1 : S)
    (h : showDropdown id b s = .ok s1) (inv : TimerInv s) : TimerInv s1 := by
  have invc : TimerInv (jsClearTimeout s.dropdownTimeout s) :=
    timerInv_jsClearTimeout _ s inv
  simp only [showDropdown] at h
  split at h
  · cases h; exact inv
  · split at h
    · cases h; exact invc
    · split at h
      · exact timerInv_hideDropdowns _ _ h invc
      · split at h
        · cases h
        · split at h
          · cases h
          · split at h <;>
            · cases h
              exact timerInv_of_fields _ _ rfl rfl rfl invc

/-- closeMobileMenu preserves the timer invariant: it touches no timers. -/
theorem timerInv_closeMobileMenu (s s1 : S) (h : closeMobileMenu s = .ok s1)
    (inv : TimerInv s) : TimerInv s1 := by
  unfold closeMobileMenu at h
  split at h
  · cases h
  · split at h
    · cases h
    · split at h
      · cases h
      · cases h
        exact timerInv_of_fields s _ rfl rfl rfl inv

/-- openMobileMenu preserves the timer invariant: it only appends the fresh
focus timer. -/
theorem timerInv_openMobileMenu (s s1 : S) (h : openMobileMenu s = .ok s1)
    (inv : TimerInv s) : TimerInv s1 := by
  unfold openMobileMenu at h
  split at h
  · split at h
    · cases h
    · split at h
      · cases h
      · split at h
        · cases h
        · cases h
          exact timerInv_of_fields _ _ rfl rfl rfl
            (timerInv_append_nondeb _ .focusClose 100 rfl
              (timerInv_of_fields s _ rfl rfl rfl inv))
  · cases h; exact inv

/-- handleResize preserves the timer invariant. -/
theorem timerInv_handleResize (s s1 : S) (h : handleResize s = .ok s1)
    (inv : TimerInv s) : TimerInv s1 := by
  unfold handleResize at h
  split at h
  · split at h
    · exact timerInv_hideDropdowns _ _ h inv
    · cases h; exact inv
  · split at h
    · exact timerInv_closeMobileMenu _ _ h inv
    · cases h; exact inv

/-- toggleMobileAccordion preserves the timer invariant. -/
theorem timerInv_toggleAccordion (a : String) (s : S) (inv : TimerInv s) :
    TimerInv (toggleMobileAccordion a s) := by
  unfold toggleMobileAccordion
  split
  · exact inv
  · split
    · exact inv
    · exact timerInv_of_fields s _ rfl rfl rfl inv

/-- handleKeyboardNavigation preserves the timer invariant. -/
theorem timerInv_handleKeyboard (k : Key) (sh : Bool) (s s1 : S)
    (h : handleKeyboardNavigation k sh s = .ok s1) (inv : TimerInv s) : TimerInv s1 := by
  unfold handleKeyboardNavigation at h
  split at h
  · exact timerInv_closeMobileMenu _ _ h inv
  · split at h
    · split at h
      · cases h
      · rename_i s2 heq
        have inv2 := timerInv_hideDropdowns _ _ heq inv
        cases h
        split
        · exact timerInv_of_fields s2 _ rfl rfl rfl inv2
        · exact inv2
    · unfold kbRest at h
      split at h
      · split at h
        · split at h
          · cases h; exact timerInv_toggleAccordion _ _ inv
          · cases h; exact inv
        · cases h; exact inv
      · split at h
        · split at h
          · split at h
            · exact timerInv_hideDropdowns _ _ h inv
            · split at h
              · cases h
              · rename_i s2 heq
                cases h
                exact timerInv_of_fields _ _ rfl rfl rfl
                  (timerInv_append_nondeb s2 .focusFirstLink 50 rfl
                    (timerInv_showDropdown _ _ _ _ heq inv))
          · cases h; exact inv
        · split at h
          · split at h
            · cases h; exact inv
            · split at h
              · cases h; exact inv
              · split at h
                · cases h
                  split
                  · exact timerInv_of_fields s _ rfl rfl rfl inv
                  · exact inv
                · split at h
                  · exact timerInv_hideDropdowns _ _ h inv
                  · cases h; exact inv
          · cases h; exact inv

/-- Running any timer callback preserves the timer invariant. -/
theorem timerInv_runTimerAction (a : TimerAction) (s s1 : S)
    (h : runTimerAction a s = .ok s1) (inv : TimerInv s) : TimerInv s1 := by
  cases a with
  | hideFinish =>
    simp only [runTimerAction] at h
    cases h
    exact timerInv_of_fields s _ rfl rfl rfl inv
  | closeDelay => exact timerInv_hideDropdowns _ _ h inv
  | debounceShow b => exact timerInv_showDropdown _ _ _ _ h inv
  | debounceLeave =>
    simp only [runTimerAction] at h
    cases h
    exact timerInv_of_fields _ _ rfl rfl rfl
      (timerInv_append_nondeb s .closeDelay CLOSE_DELAY rfl inv)
  | debounceResize => exact timerInv_handleResize _ _ h inv
  | focusClose =>
    simp only [runTimerAction] at h
    split at h
    · cases h; exact timerInv_of_fields s _ rfl rfl rfl inv
    · cases h
  | focusFirstLink =>
    simp only [runTimerAction] at h
    split at h
    · cases h; exact inv
    · split at h
      · cases h; exact inv
      · split at h
        · cases h; exact timerInv_of_fields s _ rfl rfl rfl inv
        · cases h; exact inv

/-- Firing a timer preserves the timer invariant. -/
theorem timerInv_fireTimer (t : ℕ) (s s1 : S) (h : fireTimer t s = .ok s1)
    (inv : TimerInv s) : TimerInv s1 := by
  unfold fireTimer at h
  split at h
  · cases h; exact inv
  · exact timerInv_runTimerAction _ _ _ h (timerInv_filter s _ inv)

/-- Every stimulus dispatched by applyOp preserves the timer invariant. -/
theorem timerInv_applyOp (o : Op) (s s1 : S) (h : applyOp o s = .ok s1)
    (inv : TimerInv s) : TimerInv s1 := by
  cases o with
  | mouseEnterWrapper t =>
    simp only [applyOp] at h
    split at h
    · cases h
      have hinner : TimerInv (handleMouseEnter t s) := by
        unfold handleMouseEnter
        split
        · exact inv
        · split
          · exact inv
          · exact timerInv_debounceInvoke _ _ s inv
      exact timerInv_jsClearTimeout _ _ hinner
    · cases h; exact inv
  | mouseLeaveWrapper =>
    simp only [applyOp] at h
    split at h
    · cases h
      unfold handleMouseLeave
      split
      · exact inv
      · exact timerInv_debounceInvoke _ _ s inv
    · cases h; exact inv
  | clickButton b =>
    simp only [applyOp] at h
    split at h
    · split at h
      · cases h; exact inv
      · split at h
        · exact timerInv_hideDropdowns _ _ h inv
        · exact timerInv_showDropdown _ _ _ _ h inv
    · cases h; exact inv
  | keydown k sh => exact timerInv_handleKeyboard _ _ _ _ h inv
  | clickHamburger =>
    simp only [applyOp] at h
    split at h
    · exact timerInv_openMobileMenu _ _ h inv
    · cases h; exact inv
  | clickNavClose =>
    simp only [applyOp] at h
    split at h
    · exact timerInv_closeMobileMenu _ _ h inv
    · cases h; exact inv
  | clickAccordion a =>
    simp only [applyOp] at h
    split at h
    · cases h; exact timerInv_toggleAccordion _ _ inv
    · cases h; exact inv
  | clickBackdrop =>
    simp only [applyOp] at h
    split at h
    · split at h
      · exact timerInv_closeMobileMenu _ _ h inv
      · split at h
        · exact timerInv_hideDropdowns _ _ h inv
        · cases h; exact inv
    · cases h; exact inv
  | clickDocument inside =>
    simp only [applyOp] at h
    split at h
    · split at h
      · split at h
        · cases h; exact inv
        · exact timerInv_hideDropdowns _ _ h inv
      · cases h
    · cases h; exact inv
  | resizeEvent w =>
    simp only [applyOp] at h
    cases h
    exact timerInv_debounceInvoke _ _ _ (timerInv_of_fields s _ rfl rfl rfl inv)
  | fire t => exact timerInv_fireTimer _ _ _ h inv

/-- Any run of stimuli from a state satisfying the timer invariant keeps
satisfying it. -/
theorem timerInv_runOps (l : List Op) (s s1 : S) (h : runOps l s = .ok s1)
    (inv : TimerInv s) : TimerInv s1 := by
  induction l generalizing s with
  | nil =>
    unfold runOps at h
    cases h
    exact inv
  | cons o r ih =>
    unfold runOps at h
    cases ho : applyOp o s with
    | error e => rw [ho] at h; cases h
    | ok s2 =>
      rw [ho] at h
      exact ih s2 h (timerInv_applyOp o s s2 ho inv)

/-- Under the timer invariant, at most one pending timer is debounce-created. -/
theorem timerInv_countP_le_one (l : List Timer) (ho : Option ℕ)
    (hn : (l.map Timer.tid).Nodup)
    (hd : ∀ t ∈ l, isDebounceAct t.act = true → ho = some t.tid) :
    l.countP (fun t => isDebounceAct t.act) ≤ 1 := by
  induction l with
  | nil => simp
  | cons a r ih =>
    simp only [List.map_cons, List.nodup_cons] at hn
    cases ha : isDebounceAct a.act with
    | false =>
      rw [List.countP_cons_of_neg _ _ (by simp [ha])]
      exact ih hn.2 (fun t ht htd => hd t (List.mem_cons_of_mem a ht) htd)
    | true =>
      rw [List.countP_cons_of_pos _ _ (by simp [ha])]
      have hzero : r.countP (fun t => isDebounceAct t.act) = 0 := by
        rw [List.countP_eq_zero]
        intro t ht htd
        have h1 := hd a (List.mem_cons_self a r) ha
        have h2 := hd t (List.mem_cons_of_mem a ht) (by simpa using htd)
        have : a.tid = t.tid := by
          rw [h1] at h2
          injection h2
        exact hn.1 (this ▸ List.mem_map_of_mem Timer.tid ht)
      omega

/-- Claim C4, counterexample: hover-debounce and resize-debounce are not
independent categories.  After a mouse enter on the desktop page one
hover-debounce timer is pending; a subsequent resize event (still at
desktop width) cancels that never-fired hover timer and replaces it by the
resize-debounce timer, because both run through the single shared
debounceTimeout handle — refuting the claim that timers of different
categories do not cancel each other. -/
theorem resize_debounce_cancels_hover_debounce :
    (runOps [.mouseEnterWrapper (some "products")] baseS).toOption.map
        (fun t => t.pending.map Timer.act) = some [.debounceShow "products"] ∧
    (runOps [.mouseEnterWrapper (some "products"), .resizeEvent 900]
        baseS).toOption.map (fun t => t.pending.map Timer.act) =
      some [.debounceResize] :=
  ⟨by decide, by decide⟩

/-- Claim C4 (amended): the three timer kinds do not form three independent
single-timer categories.  The hover-debounce and resize-debounce timers
share the one debounceTimeout handle with a clear-then-set discipline, so
together they hold at most one live timer after any sequence of operations
(first part); but starting a debounce of either kind cancels the pending
debounce of the other kind, and the dropdown-close category is not limited
to one live timer: two mouse-leave cycles leave two live close-delay timers
at once, because the inner callbacks overwrite dropdownTimeout without
clearing it (second part). -/
theorem debounce_category_single_timer :
    (∀ s l s1, TimerInv s → runOps l s = .ok s1 →
      s1.pending.countP (fun t => isDebounceAct t.act) ≤ 1) ∧
    (runOps [.mouseLeaveWrapper, .fire 0, .mouseLeaveWrapper, .fire 2]
        desktopOpenS).toOption.map (fun t => t.pending.map Timer.act) =
      some [.closeDelay, .closeDelay] := by
  constructor
  · intro s l s1 inv h
    obtain ⟨-, h2, h3⟩ := timerInv_runOps l s s1 h inv
    exact timerInv_countP_le_one s1.pending s1.debounceTimeout h2 h3
  · decide

/-- Witness for the amended claim C4: a hover debounce followed by a resize
debounce from the base page leaves exactly the one resize timer. -/
theorem debounce_category_single_timer_witness :
    TimerInv baseS ∧
    ({ baseS with
       width := 900, pending := [⟨1, 200, .debounceResize⟩], nextTid := 2,
       debounceTimeout := some 1 } : S).pending.countP
        (fun t => isDebounceAct t.act) ≤ 1 :=
  ⟨by unfold TimerInv; decide,
   debounce_category_single_timer.1 baseS
     [.mouseEnterWrapper (some "products"), .resizeEvent 900]
     { baseS with
       width := 900, pending := [⟨1, 200, .debounceResize⟩], nextTid := 2,
       debounceTimeout := some 1 }
     (by unfold TimerInv; decide) (by rfl)⟩

/-- Witness for claim C10: clicking the accordion section of the base page
at desktop width toggles it. -/
theorem accordion_click_ungated_by_mode_witness :
    baseS.accordions.find? (fun x => x.aid == "acc1") = some ⟨"acc1", false, some false⟩ ∧
    ∃ s1, applyOp (.clickAccordion "acc1") baseS = .ok s1 ∧
      s1.accordions.find? (fun x => x.aid == "acc1") =
        some ⟨"acc1", true, some true⟩ :=
  ⟨by decide, by
    have h := accordion_click_ungated_by_mode.1 baseS "acc1" ⟨"acc1", false, some false⟩
      false (by decide) (by decide)
    simpa using h⟩

end MenuScript
